import Mathlib

set_option maxRecDepth 8000
set_option linter.unusedVariables false

/-!
Shallow embedding of the on-chain payment verification and session-unlock
subsystem of the repository (serverless endpoint `api/payment/verify.ts` and
the client logic in `src/App.tsx`).

Conventions of the embedding:
* Decimal token amounts (the values of `parseFloat(uiTokenAmount?.uiAmountString || "0")`
  and the `amount` request field) are modelled as exact rationals.
* `Math.round` is modelled by `jsRound` (floor of x + 1/2, exactly the JS rounding rule).
* Network interaction is modelled by passing the outcome of the single RPC fetch
  (`RpcResult`) as an explicit argument: `success none` is a null transaction
  (not found), `success (some tx)` a fetched record, `failure msg` a thrown
  fetch/RPC error that the `catch` block of the source receives.
* `Date.now()` is an explicit argument where the source reads the clock.
* `console.log` output relevant to the claims (the soft buyer check) is returned
  as an explicit log list alongside the result.
-/

/-- `USDC_MINT` constant from `api/payment/verify.ts` line 7 / `App.tsx`. -/
def USDC_MINT : String := "EPjFWdd5AufqSSqeM2qN1xzybapC8G4wEGGkZwyTDt1v"

/-- `USDC_DECIMALS` constant (6) from `api/payment/verify.ts` line 8. -/
def USDC_DECIMALS : Nat := 6

/-- JavaScript `Math.round x` is `⌊x + 0.5⌋` (round half toward +infinity). -/
def jsRound (q : ℚ) : ℤ := ⌊q + 1 / 2⌋

/-- One entry of `preTokenBalances` / `postTokenBalances` of a fetched
transaction: account index, token mint, owning wallet address (optional in the
RPC schema) and the parsed decimal amount (`parseFloat` of
`uiTokenAmount?.uiAmountString || "0"`, a missing string parsing as 0). -/
structure TokenBalance where
  accountIndex : Nat
  mint : String
  owner : Option String
  amount : ℚ
deriving DecidableEq

/-- The `meta` object of a fetched transaction: the on-chain error field
(`null` on success, modelled as `Option`, the source interpolates it with
`JSON.stringify`, modelled as the already-serialized string), and the two
balance snapshot lists (`|| []` in the source makes an absent list empty). -/
structure TxMeta where
  err : Option String
  preTokenBalances : List TokenBalance
  postTokenBalances : List TokenBalance
deriving DecidableEq

/-- A fetched transaction record: `meta` may be null; `feePayer` models
`tx.transaction?.message?.accountKeys[0]?.pubkey || accountKeys[0]`
(the first account key, absent when the list is empty). -/
structure Transaction where
  meta : Option TxMeta
  feePayer : Option String
deriving DecidableEq

/-- Outcome of the single `getTransaction` RPC round trip as seen by the
verification function: a successful JSON-RPC reply whose result is null
(`success none`) or a transaction (`success (some tx)`), or a thrown error
(fetch failure or JSON-RPC error object) carrying its message. -/
inductive RpcResult where
  | success (tx : Option Transaction)
  | failure (msg : String)
deriving DecidableEq

/-- `VerificationResult` interface of `api/payment/verify.ts` lines 68-76
(`agentId` is never set by `verifyTransactionOnChain` and is omitted). -/
structure VerificationResult where
  valid : Bool
  reason : Option String := none
  signature : Option String := none
  amount : Option ℚ := none
  receiver : Option String := none
  verifiedAt : Option ℤ := none
deriving DecidableEq

/-- Pre-balance lookup shared by both scan loops of `verify.ts` (lines 122-128
and 146-151) and by `App.tsx` (lines 530-533): find the pre snapshot with the
same account index and the USDC mint, defaulting the amount to 0 when absent. -/
def preAmountFor (pres : List TokenBalance) (post : TokenBalance) : ℚ :=
  match pres.find? (fun p => p.accountIndex == post.accountIndex && p.mint == USDC_MINT) with
  | some p => p.amount
  | none => 0

/-- First scan loop of `verifyTransactionOnChain` (`verify.ts` lines 118-138):
walk the post snapshots; for an entry with the USDC mint owned by the expected
receiver whose delta over the pre snapshot is positive, stop with that delta. -/
def findTransferLoop1 (pres posts : List TokenBalance) (expectedReceiver : String) : Option ℚ :=
  match posts with
  | [] => none
  | post :: rest =>
    if post.mint = USDC_MINT ∧ post.owner = some expectedReceiver then
      let diff := post.amount - preAmountFor pres post
      if 0 < diff then some diff else findTransferLoop1 pres rest expectedReceiver
    else findTransferLoop1 pres rest expectedReceiver

/-- Fallback scan loop of `verifyTransactionOnChain` (`verify.ts` lines 143-159),
run only when the first loop found nothing: walk the post snapshots with the
USDC mint; stop at the first entry with `postAmount > preAmount` whose owner is
the expected receiver. -/
def findTransferLoop2 (pres posts : List TokenBalance) (expectedReceiver : String) : Option ℚ :=
  match posts with
  | [] => none
  | post :: rest =>
    if post.mint = USDC_MINT then
      let preAmount := preAmountFor pres post
      if preAmount < post.amount ∧ post.owner = some expectedReceiver then
        some (post.amount - preAmount)
      else findTransferLoop2 pres rest expectedReceiver
    else findTransferLoop2 pres rest expectedReceiver

/-- The complete transfer extraction of `verifyTransactionOnChain`: the first
loop, then (only when it found nothing) the fallback loop. -/
def extractTransfer (pres posts : List TokenBalance) (expectedReceiver : String) : Option ℚ :=
  match findTransferLoop1 pres posts expectedReceiver with
  | some a => some a
  | none => findTransferLoop2 pres posts expectedReceiver

/-- Rendering of a rational in a reason string; abstracts the exact JS number
formatting (which digits are printed), keeping the fact that the string is a
faithful rendering of the value. -/
def numStr (q : ℚ) : String := toString q

/-- Models `actualAmount.toFixed(6)`; like `numStr` the digit-level formatting
of JS is abstracted, only that the string renders the value matters. -/
def toFixed6 (q : ℚ) : String := numStr q

/-- The amount-mismatch reason of `verify.ts` line 176, naming the expected
and the observed amount. -/
def mismatchReasonServer (expectedAmount actualAmount : ℚ) : String :=
  "Amount mismatch: expected " ++ numStr expectedAmount ++ " USDC, received "
    ++ toFixed6 actualAmount ++ " USDC"

/-- The console note of `verify.ts` line 188 for a buyer / fee-payer mismatch. -/
def buyerMismatchNote (feePayer expectedBuyer : String) : String :=
  "Note: Fee payer " ++ feePayer ++ " differs from expected buyer " ++ expectedBuyer

/-- The optional buyer check of `verify.ts` lines 181-190: when a buyer was
supplied and the fee payer is present (and truthy) and differs, a note is
logged; nothing else happens. -/
def buyerCheckLog (tx : Transaction) (expectedBuyer : Option String) : List String :=
  match expectedBuyer with
  | none => []
  | some buyer =>
    match tx.feePayer with
    | none => []
    | some fp => if fp ≠ "" ∧ fp ≠ buyer then [buyerMismatchNote fp buyer] else []

/-- `verifyTransactionOnChain` of `api/payment/verify.ts` lines 78-207, with
the RPC outcome and the clock passed explicitly. Returns the
`VerificationResult` together with the list of logged notes. The `catch`
branch (lines 200-206) receives a thrown error and returns its message as the
reason, defaulting to "Failed to verify transaction" when the message is
falsy (empty). -/
def verifyTransactionOnChain (signature expectedReceiver : String) (expectedAmount : ℚ)
    (expectedBuyer : Option String) (rpc : RpcResult) (now : ℤ) :
    VerificationResult × List String :=
  match rpc with
  | .failure msg =>
      ({ valid := false,
         reason := some (if msg = "" then "Failed to verify transaction" else msg) },
       ["Verification error: " ++ msg])
  | .success none =>
      ({ valid := false,
         reason := some "Transaction not found. Please wait for confirmation." }, [])
  | .success (some tx) =>
    match tx.meta with
    | none => ({ valid := false, reason := some "Transaction metadata not available" }, [])
    | some meta =>
      match meta.err with
      | some e =>
          ({ valid := false, reason := some ("Transaction failed on-chain: " ++ e) }, [])
      | none =>
        let expectedRaw := jsRound (expectedAmount * (10 : ℚ) ^ USDC_DECIMALS)
        match extractTransfer meta.preTokenBalances meta.postTokenBalances expectedReceiver with
        | none =>
            ({ valid := false,
               reason := some ("No USDC transfer found to "
                 ++ expectedReceiver.take 8 ++ "...") }, [])
        | some actualAmount =>
          let actualRaw := jsRound (actualAmount * (10 : ℚ) ^ USDC_DECIMALS)
          if 10000 < (actualRaw - expectedRaw).natAbs then
            ({ valid := false,
               reason := some (mismatchReasonServer expectedAmount actualAmount) }, [])
          else
            ({ valid := true, signature := some signature, amount := some actualAmount,
               receiver := some expectedReceiver, verifiedAt := some now },
             buyerCheckLog tx expectedBuyer)

/-- `jsRound` is the identity on integers. -/
theorem jsRound_intCast (n : ℤ) : jsRound ((n : ℚ)) = n := by
  unfold jsRound
  rw [add_comm, Int.floor_add_int]
  have h0 : ⌊(1 : ℚ) / 2⌋ = 0 := by
    rw [Int.floor_eq_zero_iff]
    constructor <;> norm_num
  rw [h0, zero_add]

/-- `jsRound` on a numeric literal (plugs into `norm_num` evaluation). -/
theorem jsRound_ofNat (n : ℕ) [n.AtLeastTwo] :
    jsRound (no_index (OfNat.ofNat n) : ℚ) = OfNat.ofNat n := by
  have h := jsRound_intCast (OfNat.ofNat n : ℤ)
  simpa using h

theorem jsRound_zero : jsRound (0 : ℚ) = 0 := by
  have h := jsRound_intCast 0
  simpa using h

theorem jsRound_one : jsRound (1 : ℚ) = 1 := by
  have h := jsRound_intCast 1
  simpa using h

def txSmoke : Transaction :=
  { meta := some { err := none
                   preTokenBalances := []
                   postTokenBalances := [⟨1, USDC_MINT, some "ReceiverWallet11111", 3/10⟩] }
    feePayer := some "Buyer" }

example :
    (verifyTransactionOnChain "S1" "ReceiverWallet11111" (3/10) none
      (.success (some txSmoke)) 0).1.valid = true := by
  norm_num [verifyTransactionOnChain, extractTransfer, findTransferLoop1, findTransferLoop2,
    preAmountFor, USDC_MINT, USDC_DECIMALS, jsRound_ofNat, txSmoke, List.find?]

/-! ### Client-side verification (`src/App.tsx` lines 485-563) -/

/-- Verdict type of `verifyPaymentOnChain` in `App.tsx` (valid flag plus
optional reason). -/
structure AppVerdict where
  valid : Bool
  reason : Option String := none
deriving DecidableEq

/-- The amount-mismatch reason of `App.tsx` line 554: expected amount and
`transferredAmount / 10 ** DECIMALS` (the raw integer scaled back down). -/
def appMismatchReason (expectedAmount : ℚ) (transferredAmount : ℤ) : String :=
  "Amount mismatch: expected " ++ numStr expectedAmount ++ " USDC, got "
    ++ numStr ((transferredAmount : ℚ) / (10 : ℚ) ^ USDC_DECIMALS)

/-- The single scan loop of `verifyPaymentOnChain` (`App.tsx` lines 528-543):
NOTE the owner field is compared against `recipientATA.toString()` — the
receiver's associated token account address — not against the receiver. -/
def appFindTransferLoop (pres posts : List TokenBalance) (recipientATA : String) : Option ℚ :=
  match posts with
  | [] => none
  | post :: rest =>
    if post.owner = some recipientATA ∧ post.mint = USDC_MINT then
      let diff := post.amount - preAmountFor pres post
      if 0 < diff then some diff else appFindTransferLoop pres rest recipientATA
    else appFindTransferLoop pres rest recipientATA

/-- `verifyPaymentOnChain` of `src/App.tsx` lines 485-563. `recipientATA` is
the result of `getAssociatedTokenAddress(USDC_MINT, expectedRecipient)` — an
address derivation performed by an external library, passed as an explicit
argument here (for a wallet address it is a distinct derived program address).
`signature` and `buyerPubkey` are accepted exactly as in the source, which
never uses `buyerPubkey`. The `catch` branch defaults an empty (falsy) error
message to "Verification failed". -/
def verifyPaymentOnChain (signature expectedRecipient : String) (expectedAmount : ℚ)
    (buyerPubkey : String) (recipientATA : String) (rpc : RpcResult) : AppVerdict :=
  match rpc with
  | .failure msg =>
      { valid := false, reason := some (if msg = "" then "Verification failed" else msg) }
  | .success none =>
      { valid := false, reason := some "Transaction not found on blockchain" }
  | .success (some tx) =>
    match tx.meta with
    | none => { valid := false, reason := some "Transaction metadata not available" }
    | some meta =>
      match meta.err with
      | some e => { valid := false, reason := some ("Transaction failed: " ++ e) }
      | none =>
        let expectedRawAmount := jsRound (expectedAmount * (10 : ℚ) ^ USDC_DECIMALS)
        match appFindTransferLoop meta.preTokenBalances meta.postTokenBalances recipientATA with
        | none => { valid := false, reason := some "No USDC transfer found to recipient" }
        | some diff =>
          let transferredAmount := jsRound (diff * (10 : ℚ) ^ USDC_DECIMALS)
          if 100 < (transferredAmount - expectedRawAmount).natAbs then
            { valid := false,
              reason := some (appMismatchReason expectedAmount transferredAmount) }
          else
            { valid := true }

/-! ### The HTTP verification entry point (`api/payment/verify.ts` lines 209-297) -/

/-- Request body of `POST /api/payment/verify`. A field is `none` when it is
absent or not of the expected JS type (the source checks
`typeof signature !== "string"` etc.); an empty string is present but falsy. -/
structure VerifyRequestBody where
  signature : Option String := none
  receiver : Option String := none
  amount : Option ℚ := none
  buyer : Option String := none
  agentId : Option String := none
deriving DecidableEq

/-- JSON response of the handler together with its HTTP status. -/
structure HandlerResponse where
  status : Nat
  verified : Option Bool := none
  error : Option String := none
  signature : Option String := none
  amount : Option ℚ := none
  receiver : Option String := none
  agentId : Option String := none
  verifiedAt : Option ℤ := none
deriving DecidableEq

/-- One character of the base58 alphabet (digits 1-9, letters without 0, I, O, l),
the character class of the regex on `verify.ts` line 249. -/
def isBase58Char (c : Char) : Bool :=
  ('1' ≤ c && c ≤ '9') || ('A' ≤ c && c ≤ 'H') || ('J' ≤ c && c ≤ 'N')
    || ('P' ≤ c && c ≤ 'Z') || ('a' ≤ c && c ≤ 'k') || ('m' ≤ c && c ≤ 'z')

/-- The signature-format regex of `verify.ts` line 249:
base58 characters only, length 87 or 88. -/
def isValidSignatureFormat (s : String) : Bool :=
  (s.length == 87 || s.length == 88) && s.toList.all isBase58Char

/-- The serverless `handler` of `api/payment/verify.ts` lines 209-297, with the
RPC outcome and clock passed explicitly. The second component reports whether
`verifyTransactionOnChain` (the only network-reaching step) was invoked. -/
def handler (method : String) (body : VerifyRequestBody) (rpc : RpcResult) (now : ℤ) :
    HandlerResponse × Bool :=
  if method = "OPTIONS" then ({ status := 200 }, false)
  else if method ≠ "POST" then ({ status := 405, error := some "Method not allowed" }, false)
  else
    match body.signature with
    | none => ({ status := 400, verified := some false,
                 error := some "Transaction signature is required" }, false)
    | some sg =>
      if sg = "" then
        ({ status := 400, verified := some false,
           error := some "Transaction signature is required" }, false)
      else
        match body.receiver with
        | none => ({ status := 400, verified := some false,
                     error := some "Receiver address is required" }, false)
        | some rcv =>
          if rcv = "" then
            ({ status := 400, verified := some false,
               error := some "Receiver address is required" }, false)
          else
            match body.amount with
            | none => ({ status := 400, verified := some false,
                         error := some "Valid amount is required" }, false)
            | some amt =>
              if amt ≤ 0 then
                ({ status := 400, verified := some false,
                   error := some "Valid amount is required" }, false)
              else if !isValidSignatureFormat sg then
                ({ status := 400, verified := some false,
                   error := some "Invalid transaction signature format" }, false)
              else
                let result := (verifyTransactionOnChain sg rcv amt body.buyer rpc now).1
                if result.valid then
                  ({ status := 200, verified := some true, signature := some sg,
                     amount := result.amount, receiver := result.receiver,
                     agentId := body.agentId, verifiedAt := result.verifiedAt }, true)
                else
                  ({ status := 400, verified := some false, error := result.reason,
                     signature := some sg }, true)

/-! ### RPC endpoint failover (`api/payment/verify.ts` lines 12-38) -/

/-- `RPC_ENDPOINTS` of `verify.ts` lines 12-16 (first entry is
`process.env.SOLANA_RPC_URL || the mainnet default`; the default is used). -/
def RPC_ENDPOINTS : List String :=
  ["https://api.mainnet-beta.solana.com",
   "https://solana-api.projectserum.com",
   "https://rpc.ankr.com/solana"]

/-- `getWorkingRpc` of `verify.ts` lines 18-38: try the endpoints in order and
return the first whose health probe succeeds (`healthOk`); when every probe
fails (non-ok response or thrown fetch error alike), return `RPC_ENDPOINTS[0]`.
The return type is a plain endpoint string — there is no failure outcome. -/
def getWorkingRpc (healthOk : String → Bool) : String :=
  match RPC_ENDPOINTS.find? healthOk with
  | some rpc => rpc
  | none => RPC_ENDPOINTS.getD 0 ""

/-! ### Session store (`src/App.tsx` lines 400-482) -/

/-- `AgentSession` of `App.tsx` lines 401-405: `expiresAt = none` means
unbounded by time. -/
structure AgentSession where
  paidAt : ℤ
  expiresAt : Option ℤ
  tx : Option String
deriving DecidableEq

/-- The slice of the `Agent` record of `App.tsx` relevant to payment and
sessions: id, price, creator address, payout wallet, optional session time
limit. An absent / undefined string field is `none`; `some ""` is a present
but falsy value (JS truthiness distinguishes them only by falsiness). -/
structure Agent where
  id : String
  priceUSDC : ℚ
  creator : Option String := none
  creatorWallet : Option String := none
  maxDurationMinutes : Option ℤ := none
deriving DecidableEq

/-- `SESSION_KEY_PREFIX` of `App.tsx` line 416. -/
def SESSION_KEY_PREFIX : String := "echo_session_"

/-- `getSessionKey` of `App.tsx` lines 418-420. -/
def getSessionKey (agentId : String) : String := SESSION_KEY_PREFIX ++ agentId

/-- The `localStorage` slice holding session records, keyed by
`getSessionKey`; `JSON.stringify` / `JSON.parse` round-trip of a well-formed
record is modelled as the identity. -/
def SessionStore : Type := String → Option AgentSession

/-- `saveSession` of `App.tsx` lines 442-458: `expiresAt` is
`now + maxDurationMinutes*60*1000` when `agent.maxDurationMinutes` is truthy
and positive (for a number that is exactly: positive), else null. -/
def saveSession (store : SessionStore) (agent : Agent) (tx : Option String) (now : ℤ) :
    SessionStore :=
  let expiresAt : Option ℤ :=
    match agent.maxDurationMinutes with
    | some m => if 0 < m then some (now + m * 60 * 1000) else none
    | none => none
  fun k =>
    if k = getSessionKey agent.id then some { paidAt := now, expiresAt := expiresAt, tx := tx }
    else store k

/-- `getActiveSession` of `App.tsx` lines 423-439, returning the record (or
`none`) together with the storage after the lazy-expiry side effect: when
`data.expiresAt` is truthy (set and nonzero) and `Date.now() > expiresAt`,
the stale record is removed and `none` returned. -/
def getActiveSession (store : SessionStore) (agentId : String) (now : ℤ) :
    Option AgentSession × SessionStore :=
  match store (getSessionKey agentId) with
  | none => (none, store)
  | some data =>
    match data.expiresAt with
    | some e =>
        if e ≠ 0 ∧ e < now then
          (none, fun k => if k = getSessionKey agentId then none else store k)
        else (some data, store)
    | none => (some data, store)

/-! ### Payment modal initial state (`src/App.tsx` lines 1310-1368) -/

/-- The modal state enum of the payment UI. -/
inductive ModalState where
  | idle
  | ready
  | processing
  | paid
  | error
  | missing_payout_wallet
  | free
  | creator_free
deriving DecidableEq

/-- JS truthiness of an optional string field: present and nonempty. -/
def strTruthy : Option String → Bool
  | some s => s != ""
  | none => false

/-- Step 3 of `openPay` (`App.tsx` lines 1355-1365): the initial modal state
computed from the agent's properties, reached when the caller is not the
creator and no active session exists. `isFreeAgent` is
`!agent.creator && !agent.creatorWallet`. -/
def openPayInitialState (agent : Agent) : ModalState :=
  if !strTruthy agent.creator && !strTruthy agent.creatorWallet then .free
  else if !strTruthy agent.creatorWallet then .missing_payout_wallet
  else .ready

/-- The initial-state computation as claim C9 words it, for comparison with
`openPayInitialState`: "free when the agent has no price/creator configured;
missing_payout_wallet when the agent has no configured receiver wallet; ready
otherwise". -/
def claimedInitialState (agent : Agent) : ModalState :=
  if agent.priceUSDC = 0 ∧ strTruthy agent.creator = false then .free
  else if strTruthy agent.creatorWallet = false then .missing_payout_wallet
  else .ready

/-! ## Claims -/

/-- C2: for every transaction record whose meta error field is set, both
verification functions return valid:false with a reason indicating the
on-chain failure, regardless of the contents of the pre/post token-balance
snapshots (the error check precedes the balance scan). -/
theorem C2_meta_error_short_circuits
    (sig r : String) (amt : ℚ) (buyer : Option String) (buyerPk ata : String)
    (tx : Transaction) (meta : TxMeta) (e : String) (now : ℤ)
    (hmeta : tx.meta = some meta) (herr : meta.err = some e) :
    (verifyTransactionOnChain sig r amt buyer (.success (some tx)) now).1
        = { valid := false, reason := some ("Transaction failed on-chain: " ++ e) }
      ∧ verifyPaymentOnChain sig r amt buyerPk ata (.success (some tx))
        = { valid := false, reason := some ("Transaction failed: " ++ e) } := by
  simp only [verifyTransactionOnChain, verifyPaymentOnChain, hmeta, herr]
  refine ⟨?_, ?_⟩ <;> trivial

/-- A transaction that failed on-chain even though its balance snapshots show
a perfect matching transfer of 0.30 USDC to the receiver. -/
def txErr : Transaction :=
  { meta := some { err := some "InstructionError"
                   preTokenBalances := [⟨1, USDC_MINT, some "ReceiverWallet11111", 0⟩]
                   postTokenBalances := [⟨1, USDC_MINT, some "ReceiverWallet11111", 3/10⟩] }
    feePayer := some "BuyerWallet" }

theorem C2_witness :
    (verifyTransactionOnChain "S3" "ReceiverWallet11111" (3/10) none
        (.success (some txErr)) 0).1
        = { valid := false, reason := some ("Transaction failed on-chain: " ++ "InstructionError") }
      ∧ verifyPaymentOnChain "S3" "ReceiverWallet11111" (3/10) "BuyerWallet" "AtaAddr"
          (.success (some txErr))
        = { valid := false, reason := some ("Transaction failed: " ++ "InstructionError") } :=
  C2_meta_error_short_circuits "S3" "ReceiverWallet11111" (3/10) none "BuyerWallet" "AtaAddr"
    txErr _ "InstructionError" 0 rfl rfl

/-- C6: verification is deterministic and stateless with respect to chain
state: the embedding is a pure function of its inputs and the fetched chain
data, and the verdict (valid flag and reason) does not depend on the call
instant, so two calls with identical inputs against the same chain state
yield the same valid flag and the same reason. -/
theorem C6_idempotent_deterministic
    (sig r : String) (amt : ℚ) (buyer : Option String) (rpc : RpcResult) (t1 t2 : ℤ) :
    (verifyTransactionOnChain sig r amt buyer rpc t1).1.valid
        = (verifyTransactionOnChain sig r amt buyer rpc t2).1.valid
      ∧ (verifyTransactionOnChain sig r amt buyer rpc t1).1.reason
        = (verifyTransactionOnChain sig r amt buyer rpc t2).1.reason := by
  rcases rpc with otx | msg
  · rcases otx with _ | tx
    · exact ⟨rfl, rfl⟩
    · rcases htx : tx.meta with _ | meta
      · simp only [verifyTransactionOnChain, htx]
        refine ⟨?_, ?_⟩ <;> trivial
      · rcases herr : meta.err with _ | e
        · rcases hext : extractTransfer meta.preTokenBalances meta.postTokenBalances r
            with _ | actual
          · simp only [verifyTransactionOnChain, htx, herr, hext]
            refine ⟨?_, ?_⟩ <;> trivial
          · simp only [verifyTransactionOnChain, htx, herr, hext]
            refine ⟨?_, ?_⟩ <;> (split <;> simp_all)
        · simp only [verifyTransactionOnChain, htx, herr]
          refine ⟨?_, ?_⟩ <;> trivial
  · exact ⟨rfl, rfl⟩

/-- C7: the buyer check is soft: the verification result (the whole verdict,
so in particular valid flag and reason) is identical whatever buyer argument
is supplied — matching, different, or omitted; a mismatch affects only the
console log. -/
theorem C7_buyer_check_soft
    (sig r : String) (amt : ℚ) (b1 b2 : Option String) (rpc : RpcResult) (now : ℤ) :
    (verifyTransactionOnChain sig r amt b1 rpc now).1
      = (verifyTransactionOnChain sig r amt b2 rpc now).1 := by
  rcases rpc with otx | msg
  · rcases otx with _ | tx
    · rfl
    · rcases htx : tx.meta with _ | meta
      · simp only [verifyTransactionOnChain, htx]
      · rcases herr : meta.err with _ | e
        · rcases hext : extractTransfer meta.preTokenBalances meta.postTokenBalances r
            with _ | actual
          · simp only [verifyTransactionOnChain, htx, herr, hext]
          · simp only [verifyTransactionOnChain, htx, herr, hext]
            split <;> simp_all
        · simp only [verifyTransactionOnChain, htx, herr]
  · rfl

/-- Receiver wallet used in the concrete end-to-end scenarios. -/
def receiverR : String := "ReceiverWallet111111111111111111111111111111"

/-- Concrete stand-in for the associated token account address derived from
`receiverR` by `getAssociatedTokenAddress` (a program-derived address,
distinct from the wallet address itself). -/
def ataOfReceiverR : String := "AtaOfReceiver1111111111111111111111111111111"

/-- The receiver wallet and its derived associated token account are distinct
addresses. -/
theorem receiverR_ne_ata : (receiverR = ataOfReceiverR) = False :=
  eq_false (by decide)

/-- Scenario A transaction: no error, pre snapshot absent (the receiving token
account was created in this very transaction, so the pre-amount defaults to
0), post snapshot shows 0.30 USDC owned by the receiver. -/
def txScenarioA : Transaction :=
  { meta := some { err := none
                   preTokenBalances := []
                   postTokenBalances := [⟨1, USDC_MINT, some receiverR, 3/10⟩] }
    feePayer := some "BuyerWallet" }

/-- A successful transaction whose snapshots show no positive delta for the
receiver (pre and post both 0.30). -/
def txNoDelta : Transaction :=
  { meta := some { err := none
                   preTokenBalances := [⟨1, USDC_MINT, some receiverR, 3/10⟩]
                   postTokenBalances := [⟨1, USDC_MINT, some receiverR, 3/10⟩] }
    feePayer := some "BuyerWallet" }

/-- C4: on the claimed scenario (preAmount 0, postAmount 0.30 for owner R, no
error) the server-side `verifyTransactionOnChain` behaves exactly as the claim
says — valid:true with amount 0.30, and a "no transfer found" reason when no
entry has a positive delta — but the client-side `verifyPaymentOnChain` of
`App.tsx` does not: it compares the owner field against the receiver's derived
associated token account address instead of the receiver, so the matching
transfer is never found and it returns valid:false. -/
theorem C4_scenarioA_server_matches_client_misses :
    (verifyTransactionOnChain "S1" receiverR (3/10) none (.success (some txScenarioA)) 0).1
        = { valid := true, signature := some "S1", amount := some (3/10),
            receiver := some receiverR, verifiedAt := some 0 }
      ∧ (verifyTransactionOnChain "S1" receiverR (3/10) none (.success (some txNoDelta)) 0).1
        = { valid := false,
            reason := some ("No USDC transfer found to " ++ receiverR.take 8 ++ "...") }
      ∧ verifyPaymentOnChain "S1" receiverR (3/10) "BuyerWallet" ataOfReceiverR
          (.success (some txScenarioA))
        = { valid := false, reason := some "No USDC transfer found to recipient" } := by
  refine ⟨?_, ?_, ?_⟩
  · norm_num [verifyTransactionOnChain, extractTransfer, findTransferLoop1, findTransferLoop2,
      preAmountFor, USDC_DECIMALS, jsRound_ofNat, txScenarioA, List.find?]
  · norm_num [verifyTransactionOnChain, extractTransfer, findTransferLoop1, findTransferLoop2,
      preAmountFor, USDC_DECIMALS, jsRound_ofNat, txNoDelta, List.find?]
  · norm_num [verifyPaymentOnChain, appFindTransferLoop, preAmountFor,
      USDC_DECIMALS, jsRound_ofNat, txScenarioA, receiverR_ne_ata, List.find?]

/-- Transaction whose post snapshot credits a USDC token account recorded with
owner field equal to the derived ATA address, with 0.305 USDC (5000 raw units
away from an expected 0.30). -/
def txTol : Transaction :=
  { meta := some { err := none
                   preTokenBalances := []
                   postTokenBalances := [⟨1, USDC_MINT, some ataOfReceiverR, 61/200⟩] }
    feePayer := some "BuyerWallet" }

/-- C1 counterexample: a verification call of the client-side
`verifyPaymentOnChain` that finds a qualifying transfer whose raw delta from
the expected raw amount is 5000 — within the claimed 10000-raw-unit tolerance
— yet returns valid:false with an amount-mismatch reason, because `App.tsx`
uses a tolerance of 100 raw units, not 10000. -/
theorem C1_counterexample :
    (jsRound ((61/200 : ℚ) * (10 : ℚ) ^ USDC_DECIMALS)
        - jsRound ((3/10 : ℚ) * (10 : ℚ) ^ USDC_DECIMALS)).natAbs ≤ 10000
      ∧ verifyPaymentOnChain "S2" receiverR (3/10) "BuyerWallet" ataOfReceiverR
          (.success (some txTol))
        = { valid := false, reason := some (appMismatchReason (3/10) 305000) } := by
  constructor
  · norm_num [USDC_DECIMALS, jsRound_ofNat]
  · norm_num [verifyPaymentOnChain, appFindTransferLoop, preAmountFor,
      USDC_DECIMALS, jsRound_ofNat, txTol, appMismatchReason, numStr,
      List.find?]

/-- C1 (amended): for a verification call that finds a qualifying transfer,
the server-side `verifyTransactionOnChain` accepts iff the absolute raw
difference is at most 10000 raw units (0.01 USDC), while the client-side
`verifyPaymentOnChain` accepts iff it is at most 100 raw units (0.0001 USDC);
beyond the respective tolerance each returns valid:false with an
"Amount mismatch" reason naming both the expected and the observed amount. -/
theorem C1_amended_tolerances
    (sig r bpk ata : String) (amt : ℚ) (buyer : Option String) (now : ℤ)
    (tx : Transaction) (meta : TxMeta)
    (hmeta : tx.meta = some meta) (herr : meta.err = none)
    (actual : ℚ)
    (hfound : extractTransfer meta.preTokenBalances meta.postTokenBalances r = some actual)
    (diffA : ℚ)
    (hfoundA : appFindTransferLoop meta.preTokenBalances meta.postTokenBalances ata
      = some diffA) :
    ((verifyTransactionOnChain sig r amt buyer (.success (some tx)) now).1.valid = true
        ↔ (jsRound (actual * (10 : ℚ) ^ USDC_DECIMALS)
            - jsRound (amt * (10 : ℚ) ^ USDC_DECIMALS)).natAbs ≤ 10000)
      ∧ (10000 < (jsRound (actual * (10 : ℚ) ^ USDC_DECIMALS)
            - jsRound (amt * (10 : ℚ) ^ USDC_DECIMALS)).natAbs →
          (verifyTransactionOnChain sig r amt buyer (.success (some tx)) now).1
            = { valid := false, reason := some (mismatchReasonServer amt actual) })
      ∧ ((verifyPaymentOnChain sig r amt bpk ata (.success (some tx))).valid = true
        ↔ (jsRound (diffA * (10 : ℚ) ^ USDC_DECIMALS)
            - jsRound (amt * (10 : ℚ) ^ USDC_DECIMALS)).natAbs ≤ 100)
      ∧ (100 < (jsRound (diffA * (10 : ℚ) ^ USDC_DECIMALS)
            - jsRound (amt * (10 : ℚ) ^ USDC_DECIMALS)).natAbs →
          verifyPaymentOnChain sig r amt bpk ata (.success (some tx))
            = { valid := false,
                reason := some (appMismatchReason amt
                  (jsRound (diffA * (10 : ℚ) ^ USDC_DECIMALS))) }) := by
  simp only [verifyTransactionOnChain, verifyPaymentOnChain, hmeta, herr, hfound, hfoundA]
  by_cases h1 : 10000 < (jsRound (actual * (10 : ℚ) ^ USDC_DECIMALS)
      - jsRound (amt * (10 : ℚ) ^ USDC_DECIMALS)).natAbs <;>
    by_cases h2 : 100 < (jsRound (diffA * (10 : ℚ) ^ USDC_DECIMALS)
      - jsRound (amt * (10 : ℚ) ^ USDC_DECIMALS)).natAbs <;>
    refine ⟨?_, ?_, ?_, ?_⟩ <;> simp [h1, h2] <;> omega

/-- A transaction found by both verifiers: one post entry owned by the
receiver wallet (0.30, seen by the server scan) and one recorded with the
derived ATA address as owner (0.305, seen by the client scan). -/
def txBoth : Transaction :=
  { meta := some { err := none
                   preTokenBalances := []
                   postTokenBalances := [⟨1, USDC_MINT, some receiverR, 3/10⟩,
                                         ⟨2, USDC_MINT, some ataOfReceiverR, 61/200⟩] }
    feePayer := some "BuyerWallet" }

theorem C1_amended_witness :
    (verifyTransactionOnChain "S1" receiverR (3/10) none (.success (some txBoth)) 0).1.valid
      = true :=
  (C1_amended_tolerances "S1" receiverR "BuyerWallet" ataOfReceiverR (3/10) none 0
      txBoth _ rfl rfl (3/10)
      (by norm_num [extractTransfer, findTransferLoop1, findTransferLoop2, preAmountFor,
        txBoth, List.find?])
      (61/200)
      (by norm_num [appFindTransferLoop, preAmountFor, txBoth, receiverR_ne_ata,
        List.find?])).1.mpr
    (by norm_num [USDC_DECIMALS, jsRound_ofNat])

/-- C3 counterexample: the empty string fails the base58/87-88 check, and the
handler does reject it with 400 and without any network call, but the reason
is the field-presence message "Transaction signature is required", not one
mentioning the signature format. -/
theorem C3_counterexample :
    isValidSignatureFormat "" = false
      ∧ handler "POST"
          { signature := some "", receiver := some "ReceiverWallet111", amount := some 1 }
          (.failure "network unreachable") 0
        = ({ status := 400, verified := some false,
             error := some "Transaction signature is required" }, false)
      ∧ "Transaction signature is required" ≠ "Invalid transaction signature format" :=
  ⟨rfl, rfl, by decide⟩

/-- C3 (amended): for every POST request that passes the presence checks
(signature and receiver present and nonempty, amount a positive number) and
whose signature fails the base58/87-88 format check, the handler rejects with
status 400 and error "Invalid transaction signature format" and never invokes
the on-chain verification function; a request whose signature is the empty
string is likewise rejected with 400 and no network call, but with the reason
"Transaction signature is required". -/
theorem C3_amended_format_gate
    (body : VerifyRequestBody) (rpc : RpcResult) (now : ℤ)
    (sg rcv : String) (amt : ℚ)
    (hs : body.signature = some sg) (hs0 : sg ≠ "")
    (hr : body.receiver = some rcv) (hr0 : rcv ≠ "")
    (ha : body.amount = some amt) (ha0 : 0 < amt)
    (hfmt : isValidSignatureFormat sg = false) :
    handler "POST" body rpc now
        = ({ status := 400, verified := some false,
             error := some "Invalid transaction signature format" }, false)
      ∧ ∀ (body2 : VerifyRequestBody) (rpc2 : RpcResult) (now2 : ℤ),
          body2.signature = some "" →
          handler "POST" body2 rpc2 now2
            = ({ status := 400, verified := some false,
                 error := some "Transaction signature is required" }, false) := by
  constructor
  · simp only [handler, hs, hr, ha, hfmt]
    simp [hs0, hr0, not_le.mpr ha0]
  · intro body2 rpc2 now2 hs2
    simp only [handler, hs2]
    simp

theorem C3_amended_witness :
    handler "POST"
        { signature := some "not-a-valid-signature", receiver := some "ReceiverWallet111",
          amount := some 1 }
        (.failure "network unreachable") 0
      = ({ status := 400, verified := some false,
           error := some "Invalid transaction signature format" }, false) :=
  (C3_amended_format_gate
      { signature := some "not-a-valid-signature", receiver := some "ReceiverWallet111",
        amount := some 1 }
      (.failure "network unreachable") 0 "not-a-valid-signature" "ReceiverWallet111" 1
      rfl (by decide) rfl (by decide) rfl (by norm_num) (by decide)).1

/-- C5 counterexample: when every endpoint fails its health probe,
`getWorkingRpc` does not fail with a distinct RpcUnavailable outcome — it
returns the first endpoint anyway (its return type has no failure case), and
the subsequent RPC failure is reported by `verifyTransactionOnChain` as an
ordinary valid:false verdict carrying the error message. -/
theorem C5_counterexample :
    getWorkingRpc (fun _ => false) = "https://api.mainnet-beta.solana.com"
      ∧ (verifyTransactionOnChain "S1" "ReceiverWallet111" 1 none (.failure "fetch failed") 0).1
        = { valid := false, reason := some "fetch failed" } :=
  ⟨rfl, rfl⟩

/-- C5 (amended): when every endpoint fails the health probe the read does not
fail with an RpcUnavailable error: `getWorkingRpc` falls back to the first
endpoint, and a thrown RPC/fetch failure is caught by
`verifyTransactionOnChain` and surfaced as a valid:false verdict whose reason
is the error message (or "Failed to verify transaction" for an empty one) —
distinguishable from "Transaction not found. Please wait for confirmation."
and from semantic rejections only by that reason string. -/
theorem C5_amended_no_distinct_unavailable
    (healthOk : String → Bool) (h : ∀ r ∈ RPC_ENDPOINTS, healthOk r = false)
    (sig rcv : String) (amt : ℚ) (buyer : Option String) (msg : String)
    (hmsg : msg ≠ "") (now : ℤ) :
    getWorkingRpc healthOk = "https://api.mainnet-beta.solana.com"
      ∧ (verifyTransactionOnChain sig rcv amt buyer (.failure msg) now).1
        = { valid := false, reason := some msg }
      ∧ (msg ≠ "Transaction not found. Please wait for confirmation." →
          (verifyTransactionOnChain sig rcv amt buyer (.failure msg) now).1.reason
            ≠ some "Transaction not found. Please wait for confirmation.") := by
  refine ⟨?_, ?_, ?_⟩
  · unfold getWorkingRpc
    have hf : RPC_ENDPOINTS.find? healthOk = none := by
      rw [List.find?_eq_none]
      intro x hx
      simp [h x hx]
    rw [hf]
    rfl
  · simp only [verifyTransactionOnChain]
    simp [hmsg]
  · intro hne
    simp only [verifyTransactionOnChain]
    simp [hmsg, hne]

theorem C5_amended_witness :
    getWorkingRpc (fun _ => false) = "https://api.mainnet-beta.solana.com"
      ∧ (verifyTransactionOnChain "S1" "ReceiverWallet111" 1 none
          (.failure "connection refused") 0).1
        = { valid := false, reason := some "connection refused" } := by
  have h := C5_amended_no_distinct_unavailable (fun _ => false) (fun r _ => rfl)
    "S1" "ReceiverWallet111" 1 none "connection refused" (by decide) 0
  exact ⟨h.1, h.2.1⟩

/-- C8: saving a session and immediately reading it back yields a record with
`paidAt = now` and `expiresAt = now + maxDurationMinutes*60*1000` when a
positive max duration is configured (null expiry when unconfigured); once the
clock passes a set expiry, `getActiveSession` returns none, removes the stale
record from storage as a side effect, and every subsequent read also returns
none. -/
theorem C8_session_save_getActive_expiry
    (store : SessionStore) (agent : Agent) (tx : Option String) (now m t : ℤ)
    (hm : agent.maxDurationMinutes = some m) (hpos : 0 < m)
    (hnow : 0 ≤ now) (ht : now + m * 60 * 1000 < t) :
    (getActiveSession (saveSession store agent tx now) agent.id now).1
        = some { paidAt := now, expiresAt := some (now + m * 60 * 1000), tx := tx }
      ∧ (getActiveSession (saveSession store agent tx now) agent.id t).1 = none
      ∧ (getActiveSession (saveSession store agent tx now) agent.id t).2
          (getSessionKey agent.id) = none
      ∧ (∀ t2 : ℤ,
          (getActiveSession
            ((getActiveSession (saveSession store agent tx now) agent.id t).2)
            agent.id t2).1 = none)
      ∧ (∀ agent2 : Agent, agent2.maxDurationMinutes = none →
          (getActiveSession (saveSession store agent2 tx now) agent2.id now).1
            = some { paidAt := now, expiresAt := none, tx := tx }) := by
  have hsave : saveSession store agent tx now (getSessionKey agent.id)
      = some { paidAt := now, expiresAt := some (now + m * 60 * 1000), tx := tx } := by
    simp [saveSession, hm, hpos]
  have hc1 : ¬(now + m * 60 * 1000 ≠ 0 ∧ now + m * 60 * 1000 < now) := by omega
  have hc2 : now + m * 60 * 1000 ≠ 0 ∧ now + m * 60 * 1000 < t := by omega
  refine ⟨?_, ?_, ?_, ?_, ?_⟩
  · simp only [getActiveSession, hsave]
    rw [if_neg hc1]
  · simp only [getActiveSession, hsave]
    rw [if_pos hc2]
  · simp only [getActiveSession, hsave]
    rw [if_pos hc2]
    simp
  · intro t2
    simp only [getActiveSession, hsave]
    rw [if_pos hc2]
    simp [getActiveSession]
  · intro agent2 h2
    simp [saveSession, getActiveSession, h2]

/-- The empty client storage. -/
def emptyStore : SessionStore := fun _ => none

/-- An agent with a 60-minute session limit. -/
def a1 : Agent := { id := "a1", priceUSDC := 3/10, maxDurationMinutes := some 60 }

theorem C8_witness :
    (getActiveSession (saveSession emptyStore a1 (some "S1") 0) "a1" 0).1
        = some { paidAt := 0, expiresAt := some (0 + 60 * 60 * 1000), tx := some "S1" }
      ∧ (getActiveSession (saveSession emptyStore a1 (some "S1") 0) "a1" 3600001).1
        = none := by
  have h := C8_session_save_getActive_expiry emptyStore a1 (some "S1") 0 60 3600001
    rfl (by norm_num) le_rfl (by norm_num)
  exact ⟨h.1, h.2.1⟩

/-- C10: when the agent's max duration is unset, zero, or negative, the saved
record has a null expiry, and such a record is never lazily expired:
`getActiveSession` returns it unchanged (and leaves the storage untouched) at
every later time. -/
theorem C10_unbounded_when_unconfigured
    (store : SessionStore) (agent : Agent) (tx : Option String) (now : ℤ)
    (h : agent.maxDurationMinutes = none
        ∨ ∃ m, agent.maxDurationMinutes = some m ∧ m ≤ 0) :
    saveSession store agent tx now (getSessionKey agent.id)
        = some { paidAt := now, expiresAt := none, tx := tx }
      ∧ ∀ t : ℤ,
          getActiveSession (saveSession store agent tx now) agent.id t
            = (some { paidAt := now, expiresAt := none, tx := tx },
               saveSession store agent tx now) := by
  have hsave : saveSession store agent tx now (getSessionKey agent.id)
      = some { paidAt := now, expiresAt := none, tx := tx } := by
    rcases h with h0 | ⟨m, hm, hle⟩
    · simp [saveSession, h0]
    · simp [saveSession, hm, not_lt.mpr hle]
  refine ⟨hsave, ?_⟩
  intro t
  simp [getActiveSession, hsave]

/-- An agent whose max duration is configured negative. -/
def aNeg : Agent := { id := "a2", priceUSDC := 1, maxDurationMinutes := some (-5) }

theorem C10_witness :
    saveSession emptyStore aNeg (some "S9") 100 (getSessionKey "a2")
        = some { paidAt := 100, expiresAt := none, tx := some "S9" }
      ∧ getActiveSession (saveSession emptyStore aNeg (some "S9") 100) "a2" 999999999
        = (some { paidAt := 100, expiresAt := none, tx := some "S9" },
           saveSession emptyStore aNeg (some "S9") 100) := by
  have h := C10_unbounded_when_unconfigured emptyStore aNeg (some "S9") 100
    (Or.inr ⟨-5, rfl, by norm_num⟩)
  exact ⟨h.1, h.2 999999999⟩

/-- An agent with a nonzero price, no creator, and a configured payout wallet:
under the claim wording ("free when the agent has no price/creator
configured") price 0 and no creator mean free, but the code gives it state
ready because only creator and creatorWallet are consulted. -/
def agentPricedWallet : Agent :=
  { id := "a9", priceUSDC := 0, creator := none, creatorWallet := some "CreatorWallet111" }

/-- C9 counterexample: for an agent with price 0, no creator, and a configured
payout wallet, the claimed state computation ("no price/creator configured →
free") gives `free`, but `openPay` computes `ready` — the code never consults
the price and requires the payout wallet to also be absent for `free`. -/
theorem C9_counterexample :
    claimedInitialState agentPricedWallet = ModalState.free
      ∧ openPayInitialState agentPricedWallet = ModalState.ready
      ∧ ModalState.free ≠ ModalState.ready := by
  refine ⟨?_, rfl, by decide⟩
  norm_num [claimedInitialState, agentPricedWallet, strTruthy]

/-- C9 (amended): the initial modal state computed by `openPay` is `free` iff
the agent has neither a (truthy) creator nor a (truthy) payout wallet,
`missing_payout_wallet` iff it has a creator but no payout wallet, and `ready`
iff it has a payout wallet; the price is not consulted. -/
theorem C9_amended_initial_state (agent : Agent) :
    (openPayInitialState agent = ModalState.free
        ↔ strTruthy agent.creator = false ∧ strTruthy agent.creatorWallet = false)
      ∧ (openPayInitialState agent = ModalState.missing_payout_wallet
        ↔ strTruthy agent.creator = true ∧ strTruthy agent.creatorWallet = false)
      ∧ (openPayInitialState agent = ModalState.ready
        ↔ strTruthy agent.creatorWallet = true) := by
  unfold openPayInitialState
  cases hc : strTruthy agent.creator <;> cases hw : strTruthy agent.creatorWallet <;> simp
